import Mathlib

/-!
Shallow embedding of `src/app.py` (SOFC ramp-rate advisory controller).

The control core is `calculate_next_step` (app.py lines 55-88); the sample
store is the `history` list (lines 131-133); the boundary-condition log is
the `config_log` update in the sidebar (lines 30-45).  Quantities the Python
code holds as floats are modelled as exact rationals; Python `round`, which
rounds half to even, is modelled by `roundHalfEven`.
-/

namespace SOC

/-- Python's `round` to the nearest integer, ties to even, on rationals. -/
def roundHalfEven (x : ℚ) : ℤ :=
  if x - ⌊x⌋ < 1/2 then ⌊x⌋
  else if 1/2 < x - ⌊x⌋ then ⌊x⌋ + 1
  else if ⌊x⌋ % 2 = 0 then ⌊x⌋ else ⌊x⌋ + 1

/-- Python `round(x, 2)`. -/
def round2 (x : ℚ) : ℚ := (roundHalfEven (x * 100) : ℚ) / 100

/-- Python `round(x, 1)`. -/
def round1 (x : ℚ) : ℚ := (roundHalfEven (x * 10) : ℚ) / 10

/-- One observed plant state (the `current_entry` dict of app.py lines 109-113).
`time` is the timestamp in seconds (only differences are ever used). -/
structure Sample where
  time : ℚ
  h2 : ℚ
  air : ℚ
  t2 : ℚ
  tc3 : ℚ
  tc1 : ℚ
  deriving DecidableEq

/-- The four operator-set boundary values of the sidebar (app.py lines 24-27). -/
structure Limits where
  target_slope : ℚ
  max_stack_dt : ℚ
  max_ab_dt : ℚ
  min_air_flow : ℚ
  deriving DecidableEq

/-- Status classification of a control step; each constructor stands for one
of the distinct `status_msg` strings of app.py (lines 58, 75, 81, 86). -/
inductive Status where
  | waiting
  | stable
  | afterburner
  | stackProtect
  deriving DecidableEq

/-- The 4-tuple returned by `calculate_next_step` (app.py lines 58 and 88). -/
structure ControlResult where
  next_h2 : ℚ
  next_air : ℚ
  status : Status
  observed_slope : ℚ
  deriving DecidableEq

/-- Embedding of `calculate_next_step(curr, last)` (app.py lines 55-88).
The module-level values `target_slope`, `max_stack_dt`, `max_ab_dt`,
`min_air_flow` read by the Python function are passed as `L`. -/
def calculate_next_step (L : Limits) (curr last : Sample) : ControlResult :=
  let dt := (curr.time - last.time) / 60
  if dt ≤ 0 then ⟨curr.h2, curr.air, Status.waiting, 0⟩
  else
    let H2_GAIN : ℚ := 0.20
    let actual_slope := (curr.tc3 - last.tc3) / dt
    let stack_dt := |curr.tc3 - curr.t2|
    let ab_dt := curr.tc1 - curr.tc3
    let slope_error := L.target_slope - actual_slope
    let h2_adjustment := slope_error / H2_GAIN
    let suggested_h2 := max 0 (curr.h2 + h2_adjustment)
    let suggested_air := curr.air
    let suggested_h2 := if L.max_ab_dt - 10 < ab_dt then
      min suggested_h2 (curr.h2 * 0.95) else suggested_h2
    let suggested_air := if L.max_ab_dt - 10 < ab_dt then suggested_air + 50 else suggested_air
    let suggested_air := if L.max_stack_dt - 15 < stack_dt then
      suggested_air + 100 else suggested_air
    let status_msg := if L.max_stack_dt - 15 < stack_dt then Status.stackProtect
      else if L.max_ab_dt - 10 < ab_dt then Status.afterburner else Status.stable
    ⟨round2 suggested_h2, round1 (max suggested_air L.min_air_flow), status_msg, actual_slope⟩

/-- Line 64 of app.py: `actual_slope = (curr['tc3'] - last['tc3']) / dt`. -/
def actualSlope (c l : Sample) : ℚ := (c.tc3 - l.tc3) / ((c.time - l.time) / 60)

/-- Line 65 of app.py: `stack_dt = abs(curr['tc3'] - curr['t2'])`. -/
def stackDt (c : Sample) : ℚ := |c.tc3 - c.t2|

/-- Line 66 of app.py: `ab_dt = curr['tc1'] - curr['tc3']`. -/
def abDt (c : Sample) : ℚ := c.tc1 - c.tc3

/-- Lines 69-71 of app.py: the pre-protection fuel suggestion
`max(0.0, curr['h2'] + (target_slope - actual_slope) / H2_GAIN)`. -/
def suggestedH2 (L : Limits) (c l : Sample) : ℚ :=
  max 0 (c.h2 + (L.target_slope - actualSlope c l) / 0.20)

/-- Line 79 of app.py: the fuel suggestion after the afterburner clamp. -/
def finalH2 (L : Limits) (c l : Sample) : ℚ :=
  if L.max_ab_dt - 10 < abDt c then min (suggestedH2 L c l) (c.h2 * 0.95)
  else suggestedH2 L c l

/-- Lines 74 and 80 of app.py: air baseline plus the afterburner increment. -/
def airAfterAb (L : Limits) (c : Sample) : ℚ :=
  if L.max_ab_dt - 10 < abDt c then c.air + 50 else c.air

/-- Line 85 of app.py: air after the stack-protection increment. -/
def airAfterStack (L : Limits) (c : Sample) : ℚ :=
  if L.max_stack_dt - 15 < stackDt c then airAfterAb L c + 100 else airAfterAb L c

/-- Lines 75, 81 and 86 of app.py: the last status message written wins. -/
def statusOf (L : Limits) (c : Sample) : Status :=
  if L.max_stack_dt - 15 < stackDt c then Status.stackProtect
  else if L.max_ab_dt - 10 < abDt c then Status.afterburner else Status.stable

/-- Embedding of the sample-store append (app.py lines 131-133):
`history.append(entry); if len(history) > 20: history.pop(0)`. -/
def appendSample (hist : List Sample) (s : Sample) : List Sample :=
  if 20 < (hist ++ [s]).length then (hist ++ [s]).drop 1 else hist ++ [s]

/-- Appending a whole list of samples in order, starting from `hist`. -/
def appendAll (hist : List Sample) (xs : List Sample) : List Sample :=
  xs.foldl appendSample hist

/-- Which boundary field a change record is about.  The Python dict
`current_config` (app.py lines 30-34) monitors only the first three. -/
inductive ConfigField where
  | targetSlope
  | stackDtLimit
  | abDtLimit
  | minAirFlow
  deriving DecidableEq

/-- One entry of the boundary-condition change log (app.py lines 39-44). -/
structure ChangeRecord where
  time : ℚ
  field : ConfigField
  oldValue : ℚ
  newValue : ℚ
  deriving DecidableEq

/-- Embedding of the config-log update (app.py lines 30-45): the monitored
dict holds `target_slope`, `max_stack_dt`, `max_ab_dt` (not `min_air_flow`);
for each monitored key whose value changed, one record is inserted at the
head of the log, iterating keys in dict insertion order. -/
def recordIfChanged (t : ℚ) (oldL newL : Limits) (log : List ChangeRecord) :
    List ChangeRecord :=
  let log := if newL.target_slope ≠ oldL.target_slope then
    ⟨t, ConfigField.targetSlope, oldL.target_slope, newL.target_slope⟩ :: log else log
  let log := if newL.max_stack_dt ≠ oldL.max_stack_dt then
    ⟨t, ConfigField.stackDtLimit, oldL.max_stack_dt, newL.max_stack_dt⟩ :: log else log
  let log := if newL.max_ab_dt ≠ oldL.max_ab_dt then
    ⟨t, ConfigField.abDtLimit, oldL.max_ab_dt, newL.max_ab_dt⟩ :: log else log
  log

/-! ### Concrete inputs used by counterexamples and witnesses -/

/-- The spec's example previous sample: t=0, h2=10, air=800, t2=300, tc3=280, tc1=430. -/
def prevSample : Sample := ⟨0, 10, 800, 300, 280, 430⟩

/-- The spec's example current sample: t=1 min, h2=10, air=800, t2=300, tc3=280.5, tc1=440. -/
def currSample : Sample := ⟨60, 10, 800, 300, 280.5, 440⟩

/-- The spec's example limits: target 0.7, stack 100, afterburner 170, min air 500. -/
def exLimits : Limits := ⟨0.7, 100, 170, 500⟩

/-- Previous sample for the afterburner-bound counterexample. -/
def abPrev : Sample := ⟨0, 10.01, 800, 0, 0, 0⟩

/-- Current sample for the afterburner-bound counterexample: `ab_dt = 165 = 170 - 5`. -/
def abCurr : Sample := ⟨60, 10.01, 800, 0, 0, 165⟩

/-- A flat sample at time 0 with air flow 0 (below the 500 lpm floor). -/
def lowAirPrev : Sample := ⟨0, 10, 0, 0, 0, 0⟩

/-- The same flat sample resubmitted at the same timestamp (`dt = 0`). -/
def lowAirCurr : Sample := ⟨0, 10, 0, 0, 0, 0⟩

/-- The flat low-air sample one minute later (`dt = 1`). -/
def lowAirLater : Sample := ⟨60, 10, 0, 0, 0, 0⟩

/-- Limits whose minimum air flow 500.04 is not a multiple of 0.1. -/
def fracLimits : Limits := ⟨0.7, 100, 170, 500.04⟩

/-- Previous sample for the stack-composability counterexample. -/
def bothPrev : Sample := ⟨0, 10, 800.04, 100, 300, 470⟩

/-- Current sample with both protections firing: `ab_dt = 170`, `stack_dt = 200`. -/
def bothCurr : Sample := ⟨60, 10, 800.04, 100, 300, 470⟩

/-- `exLimits` with only the target slope changed, 0.7 to 0.9. -/
def slopeLimits : Limits := ⟨0.9, 100, 170, 500⟩

/-- `exLimits` with only the minimum air flow changed, 500 to 600. -/
def minAirLimits : Limits := ⟨0.7, 100, 170, 600⟩

/-- Twenty-five distinct samples used to exercise the bounded store. -/
def sampleSeq : List Sample :=
  (List.range 25).map (fun (i : ℕ) => ⟨(i : ℚ), 0, 0, 0, 0, 0⟩)

/-! ### Lemmas about the rounding functions -/

lemma floor_le_roundHalfEven (x : ℚ) : ⌊x⌋ ≤ roundHalfEven x := by
  unfold roundHalfEven
  split_ifs <;> omega

lemma roundHalfEven_le_floor_add_one (x : ℚ) : roundHalfEven x ≤ ⌊x⌋ + 1 := by
  unfold roundHalfEven
  split_ifs <;> omega

lemma roundHalfEven_mono {x y : ℚ} (h : x ≤ y) : roundHalfEven x ≤ roundHalfEven y := by
  rcases lt_or_le ⌊x⌋ ⌊y⌋ with hf | hf
  · calc roundHalfEven x ≤ ⌊x⌋ + 1 := roundHalfEven_le_floor_add_one x
    _ ≤ ⌊y⌋ := by omega
    _ ≤ roundHalfEven y := floor_le_roundHalfEven y
  · have hfe : ⌊x⌋ = ⌊y⌋ := le_antisymm (Int.floor_mono h) hf
    unfold roundHalfEven
    rw [hfe]
    split_ifs <;> first | omega | (exfalso; linarith)

lemma roundHalfEven_nonneg {x : ℚ} (h : 0 ≤ x) : 0 ≤ roundHalfEven x := by
  have := floor_le_roundHalfEven x
  have := Int.floor_nonneg.mpr h
  omega

lemma roundHalfEven_intCast (n : ℤ) : roundHalfEven (n : ℚ) = n := by
  unfold roundHalfEven
  rw [Int.floor_intCast]
  norm_num

lemma roundHalfEven_eq_of_lt_half {x : ℚ} {n : ℤ} (h1 : (n : ℚ) ≤ x)
    (h2 : x < (n : ℚ) + 1/2) : roundHalfEven x = n := by
  have hf : ⌊x⌋ = n := Int.floor_eq_iff.mpr ⟨h1, by linarith⟩
  unfold roundHalfEven
  rw [hf, if_pos (by linarith)]

lemma roundHalfEven_eq_of_half_lt {x : ℚ} {n : ℤ} (h1 : (n : ℚ) + 1/2 < x)
    (h2 : x < (n : ℚ) + 1) : roundHalfEven x = n + 1 := by
  have hf : ⌊x⌋ = n := Int.floor_eq_iff.mpr ⟨by linarith, by linarith⟩
  unfold roundHalfEven
  rw [hf, if_neg (by linarith), if_pos (by linarith)]

lemma round2_mono {x y : ℚ} (h : x ≤ y) : round2 x ≤ round2 y := by
  unfold round2
  have := roundHalfEven_mono (mul_le_mul_of_nonneg_right h (by norm_num : (0:ℚ) ≤ 100))
  have hc : ((roundHalfEven (x * 100) : ℚ)) ≤ ((roundHalfEven (y * 100) : ℚ)) := by
    exact_mod_cast this
  linarith

lemma round1_mono {x y : ℚ} (h : x ≤ y) : round1 x ≤ round1 y := by
  unfold round1
  have := roundHalfEven_mono (mul_le_mul_of_nonneg_right h (by norm_num : (0:ℚ) ≤ 10))
  have hc : ((roundHalfEven (x * 10) : ℚ)) ≤ ((roundHalfEven (y * 10) : ℚ)) := by
    exact_mod_cast this
  linarith

lemma round2_nonneg {x : ℚ} (h : 0 ≤ x) : 0 ≤ round2 x := by
  unfold round2
  have h0 : (0:ℤ) ≤ roundHalfEven (x * 100) := roundHalfEven_nonneg (by positivity)
  have hc : (0:ℚ) ≤ (roundHalfEven (x * 100) : ℚ) := by exact_mod_cast h0
  linarith

/-! ### Structural lemmas about the control step -/

lemma step_nonpos_eq (L : Limits) (c l : Sample) (h : c.time ≤ l.time) :
    calculate_next_step L c l = ⟨c.h2, c.air, Status.waiting, 0⟩ := by
  unfold calculate_next_step
  rw [if_pos]
  exact div_nonpos_iff.mpr (Or.inr ⟨by linarith, by norm_num⟩)

lemma step_pos_eq (L : Limits) (c l : Sample) (h : l.time < c.time) :
    calculate_next_step L c l =
      ⟨round2 (finalH2 L c l), round1 (max (airAfterStack L c) L.min_air_flow),
        statusOf L c, actualSlope c l⟩ := by
  unfold calculate_next_step
  rw [if_neg]
  · rfl
  · push_neg
    exact div_pos (by linarith) (by norm_num)

/-! ### Claim theorems -/

/-- C1 (counterexample): on the spec's example inputs the claimed output
(next_h2=9.5, next_air=850.0, status=AfterburnerProtection, observed_slope=0.5)
is not what `calculate_next_step` returns: ab_dt = 440 - 280.5 = 159.5 is not
greater than 170 - 10 = 160, so the afterburner rule does not fire. -/
theorem example_scenario_claim_false :
    calculate_next_step exLimits currSample prevSample ≠
      ⟨9.5, 850, Status.afterburner, 0.5⟩ := by
  have hab : ¬ (exLimits.max_ab_dt - 10 < abDt currSample) := by
    norm_num [abDt, exLimits, currSample]
  have hsk : ¬ (exLimits.max_stack_dt - 15 < stackDt currSample) := by
    norm_num [stackDt, exLimits, currSample, abs_le]
  have hst : (calculate_next_step exLimits currSample prevSample).status = Status.stable := by
    rw [step_pos_eq _ _ _ (by norm_num [currSample, prevSample])]
    show statusOf exLimits currSample = Status.stable
    rw [statusOf, if_neg hsk, if_neg hab]
  intro hEq
  rw [hEq] at hst
  exact absurd hst (by simp)

/-- C1 (amended): on the spec's example inputs the step returns
next_h2=11.0, next_air=800.0, status=Stable, observed_slope=0.5. -/
theorem example_scenario_result :
    calculate_next_step exLimits currSample prevSample = ⟨11, 800, Status.stable, 0.5⟩ := by
  rw [step_pos_eq _ _ _ (by norm_num [currSample, prevSample])]
  have hab : ¬ (exLimits.max_ab_dt - 10 < abDt currSample) := by
    norm_num [abDt, exLimits, currSample]
  have hsk : ¬ (exLimits.max_stack_dt - 15 < stackDt currSample) := by
    norm_num [stackDt, exLimits, currSample, abs_le]
  have h1 : finalH2 exLimits currSample prevSample = 11 := by
    rw [finalH2, if_neg hab]
    norm_num [suggestedH2, actualSlope, exLimits, currSample, prevSample]
  have h2 : airAfterStack exLimits currSample = 800 := by
    rw [airAfterStack, if_neg hsk, airAfterAb, if_neg hab]
    norm_num [currSample]
  rw [h1, h2, statusOf, if_neg hsk, if_neg hab]
  have hmax : max (800:ℚ) exLimits.min_air_flow = 800 := by
    norm_num [exLimits]
  rw [hmax]
  have r2 : round2 11 = 11 := by
    rw [round2, show (11:ℚ) * 100 = ((1100:ℤ):ℚ) from by norm_num, roundHalfEven_intCast]
    norm_num
  have r1 : round1 800 = 800 := by
    rw [round1, show (800:ℚ) * 10 = ((8000:ℤ):ℚ) from by norm_num, roundHalfEven_intCast]
    norm_num
  rw [r2, r1]
  norm_num [actualSlope, currSample, prevSample]

/-- C2 (counterexample): with h2=10.01, ab_dt = 165 = max_ab_dt - 5 and a
large slope error, the clamp value 10.01 * 0.95 = 9.5095 rounds up to 9.51,
so the returned next_h2 exceeds current.h2_flow * 0.95. -/
theorem afterburner_bound_exact_false :
    abCurr.tc1 - abCurr.tc3 = exLimits.max_ab_dt - 5 ∧
    ¬ ((calculate_next_step exLimits abCurr abPrev).next_h2 ≤ abCurr.h2 * 0.95) := by
  constructor
  · norm_num [abCurr, exLimits]
  · rw [step_pos_eq _ _ _ (by norm_num [abCurr, abPrev])]
    have hab : exLimits.max_ab_dt - 10 < abDt abCurr := by
      norm_num [abDt, exLimits, abCurr]
    have hmin : finalH2 exLimits abCurr abPrev = 10.01 * 0.95 := by
      rw [finalH2, if_pos hab]
      have hs : suggestedH2 exLimits abCurr abPrev = 13.51 := by
        norm_num [suggestedH2, actualSlope, exLimits, abCurr, abPrev]
      rw [hs]
      norm_num [abCurr]
    show ¬ (round2 (finalH2 exLimits abCurr abPrev) ≤ abCurr.h2 * 0.95)
    rw [hmin]
    have h9 : roundHalfEven (((950:ℤ):ℚ) + 0.95) = (950:ℤ) + 1 :=
      roundHalfEven_eq_of_half_lt (by norm_num) (by norm_num)
    have hx : round2 (10.01 * 0.95) = 9.51 := by
      rw [round2, show (10.01:ℚ) * 0.95 * 100 = ((950:ℤ):ℚ) + 0.95 from by norm_num, h9]
      push_cast
      norm_num
    rw [hx]
    norm_num [abCurr]

/-- C2 (amended): with dt > 0 and ab_dt = max_ab_dt - 5, the returned
setpoints satisfy the claimed bounds up to output rounding:
next_h2 <= round(current.h2_flow * 0.95, 2) and
next_air >= round(current.air_flow + 50, 1). -/
theorem afterburner_trigger_bounds (L : Limits) (c l : Sample)
    (hdt : l.time < c.time) (hab : c.tc1 - c.tc3 = L.max_ab_dt - 5) :
    (calculate_next_step L c l).next_h2 ≤ round2 (c.h2 * 0.95) ∧
    round1 (c.air + 50) ≤ (calculate_next_step L c l).next_air := by
  rw [step_pos_eq _ _ _ hdt]
  have hfab : L.max_ab_dt - 10 < abDt c := by
    rw [abDt, hab]; linarith
  constructor
  · show round2 (finalH2 L c l) ≤ round2 (c.h2 * 0.95)
    apply round2_mono
    rw [finalH2, if_pos hfab]
    exact min_le_right _ _
  · show round1 (c.air + 50) ≤ round1 (max (airAfterStack L c) L.min_air_flow)
    apply round1_mono
    have h0 : airAfterAb L c = c.air + 50 := by
      rw [airAfterAb, if_pos hfab]
    have h1 : c.air + 50 ≤ airAfterStack L c := by
      rw [airAfterStack, h0]
      split_ifs <;> linarith
    exact le_trans h1 (le_max_left _ _)

/-- Witness for the amended C2 theorem at the concrete afterburner input. -/
theorem afterburner_trigger_bounds_witness :
    abPrev.time < abCurr.time ∧ abCurr.tc1 - abCurr.tc3 = exLimits.max_ab_dt - 5 ∧
    ((calculate_next_step exLimits abCurr abPrev).next_h2 ≤ round2 (abCurr.h2 * 0.95) ∧
      round1 (abCurr.air + 50) ≤ (calculate_next_step exLimits abCurr abPrev).next_air) :=
  ⟨by norm_num [abPrev, abCurr], by norm_num [abCurr, exLimits],
    afterburner_trigger_bounds exLimits abCurr abPrev (by norm_num [abPrev, abCurr])
      (by norm_num [abCurr, exLimits])⟩

/-- C4: whenever current.timestamp <= previous.timestamp (dt <= 0), the step
returns the deferred result with unchanged flows, the waiting status, and
observed_slope = 0. -/
theorem zero_time_deferral (L : Limits) (c l : Sample) (h : c.time ≤ l.time) :
    calculate_next_step L c l = ⟨c.h2, c.air, Status.waiting, 0⟩ :=
  step_nonpos_eq L c l h

/-- Witness for the deferral theorem on a duplicate sample. -/
theorem zero_time_deferral_witness :
    lowAirCurr.time ≤ lowAirPrev.time ∧
    calculate_next_step exLimits lowAirCurr lowAirPrev = ⟨10, 0, Status.waiting, 0⟩ := by
  refine ⟨by norm_num [lowAirCurr, lowAirPrev], ?_⟩
  rw [zero_time_deferral exLimits lowAirCurr lowAirPrev (by norm_num [lowAirCurr, lowAirPrev])]
  norm_num [lowAirCurr]

/-- C5 (counterexample): the floor invariant `next_air >= min_air_flow` fails
both on the dt <= 0 path (air returned unchanged, 0 < 500) and on the dt > 0
path when min_air_flow = 500.04 is not a multiple of 0.1 (the result 500.04 is
rounded down to 500.0). -/
theorem air_floor_claim_false :
    (calculate_next_step exLimits lowAirCurr lowAirPrev).next_air < exLimits.min_air_flow ∧
    (calculate_next_step fracLimits lowAirLater lowAirPrev).next_air <
      fracLimits.min_air_flow := by
  constructor
  · rw [step_nonpos_eq _ _ _ (by norm_num [lowAirCurr, lowAirPrev])]
    norm_num [lowAirCurr, exLimits]
  · rw [step_pos_eq _ _ _ (by norm_num [lowAirLater, lowAirPrev])]
    have hab : ¬ (fracLimits.max_ab_dt - 10 < abDt lowAirLater) := by
      norm_num [abDt, fracLimits, lowAirLater]
    have hsk : ¬ (fracLimits.max_stack_dt - 15 < stackDt lowAirLater) := by
      norm_num [stackDt, fracLimits, lowAirLater, abs_le]
    show round1 (max (airAfterStack fracLimits lowAirLater) fracLimits.min_air_flow) <
      fracLimits.min_air_flow
    have ha : airAfterStack fracLimits lowAirLater = 0 := by
      rw [airAfterStack, if_neg hsk, airAfterAb, if_neg hab]
      norm_num [lowAirLater]
    rw [ha]
    have hm : max (0:ℚ) fracLimits.min_air_flow = 500.04 := by norm_num [fracLimits]
    rw [hm]
    have h5 : roundHalfEven (((5000:ℤ):ℚ) + 0.4) = (5000:ℤ) :=
      roundHalfEven_eq_of_lt_half (by norm_num) (by norm_num)
    have hr : round1 (500.04:ℚ) = 500 := by
      rw [round1, show (500.04:ℚ) * 10 = ((5000:ℤ):ℚ) + 0.4 from by norm_num, h5]
      norm_num
    rw [hr]
    norm_num [fracLimits]

/-- C5 (amended): given non-negative current h2, next_h2 >= 0 always; when
dt > 0, next_air >= round(min_air_flow, 1); when dt <= 0 the air flow is
returned unchanged (so it may sit below min_air_flow). -/
theorem floor_invariants_amended (L : Limits) (c l : Sample) (hh2 : 0 ≤ c.h2) :
    0 ≤ (calculate_next_step L c l).next_h2 ∧
    (l.time < c.time → round1 L.min_air_flow ≤ (calculate_next_step L c l).next_air) ∧
    (c.time ≤ l.time → (calculate_next_step L c l).next_air = c.air) := by
  refine ⟨?_, ?_, ?_⟩
  · rcases le_or_lt c.time l.time with h | h
    · rw [step_nonpos_eq _ _ _ h]
      exact hh2
    · rw [step_pos_eq _ _ _ h]
      show 0 ≤ round2 (finalH2 L c l)
      apply round2_nonneg
      rw [finalH2]
      have hs : (0:ℚ) ≤ suggestedH2 L c l := le_max_left _ _
      split_ifs with hc
      · exact le_min hs (mul_nonneg hh2 (by norm_num))
      · exact hs
  · intro h
    rw [step_pos_eq _ _ _ h]
    show round1 L.min_air_flow ≤ round1 (max (airAfterStack L c) L.min_air_flow)
    exact round1_mono (le_max_right _ _)
  · intro h
    rw [step_nonpos_eq _ _ _ h]

/-- Witness for the amended C5 theorem at the spec's example input. -/
theorem floor_invariants_amended_witness :
    (0:ℚ) ≤ currSample.h2 ∧
    (0 ≤ (calculate_next_step exLimits currSample prevSample).next_h2 ∧
      (prevSample.time < currSample.time →
        round1 exLimits.min_air_flow ≤
          (calculate_next_step exLimits currSample prevSample).next_air) ∧
      (currSample.time ≤ prevSample.time →
        (calculate_next_step exLimits currSample prevSample).next_air = currSample.air)) :=
  ⟨by norm_num [currSample],
    floor_invariants_amended exLimits currSample prevSample (by norm_num [currSample])⟩

/-- C6 (counterexample): with both protections firing and air = 800.04, the
accumulated suggestion 950.04 is rounded down to 950.0, so next_air falls
short of current.air_flow + 150 (the status is still StackProtection). -/
theorem stack_composability_exact_false :
    exLimits.max_ab_dt - 10 < bothCurr.tc1 - bothCurr.tc3 ∧
    exLimits.max_stack_dt - 15 < |bothCurr.tc3 - bothCurr.t2| ∧
    (calculate_next_step exLimits bothCurr bothPrev).status = Status.stackProtect ∧
    (calculate_next_step exLimits bothCurr bothPrev).next_air < bothCurr.air + 150 := by
  have hab : exLimits.max_ab_dt - 10 < abDt bothCurr := by
    norm_num [abDt, exLimits, bothCurr]
  have hsk : exLimits.max_stack_dt - 15 < stackDt bothCurr := by
    norm_num [stackDt, exLimits, bothCurr, lt_abs]
  refine ⟨by norm_num [exLimits, bothCurr], by norm_num [exLimits, bothCurr, lt_abs], ?_, ?_⟩
  · rw [step_pos_eq _ _ _ (by norm_num [bothCurr, bothPrev])]
    show statusOf exLimits bothCurr = Status.stackProtect
    rw [statusOf, if_pos hsk]
  · rw [step_pos_eq _ _ _ (by norm_num [bothCurr, bothPrev])]
    show round1 (max (airAfterStack exLimits bothCurr) exLimits.min_air_flow) <
      bothCurr.air + 150
    have ha : airAfterStack exLimits bothCurr = 950.04 := by
      rw [airAfterStack, if_pos hsk, airAfterAb, if_pos hab]
      norm_num [bothCurr]
    rw [ha]
    have hm : max (950.04:ℚ) exLimits.min_air_flow = 950.04 := by norm_num [exLimits]
    rw [hm]
    have h5 : roundHalfEven (((9500:ℤ):ℚ) + 0.4) = (9500:ℤ) :=
      roundHalfEven_eq_of_lt_half (by norm_num) (by norm_num)
    have hr : round1 (950.04:ℚ) = 950 := by
      rw [round1, show (950.04:ℚ) * 10 = ((9500:ℤ):ℚ) + 0.4 from by norm_num, h5]
      norm_num
    rw [hr]
    norm_num [bothCurr]

/-- C6 (amended): when dt > 0 and both protection conditions hold, the two
air increments accumulate up to output rounding
(next_air >= round(current.air_flow + 150, 1)) and the status is
StackProtection. -/
theorem stack_trigger_composability (L : Limits) (c l : Sample)
    (hdt : l.time < c.time) (h1 : L.max_ab_dt - 10 < c.tc1 - c.tc3)
    (h2 : L.max_stack_dt - 15 < |c.tc3 - c.t2|) :
    round1 (c.air + 150) ≤ (calculate_next_step L c l).next_air ∧
    (calculate_next_step L c l).status = Status.stackProtect := by
  have hab : L.max_ab_dt - 10 < abDt c := h1
  have hsk : L.max_stack_dt - 15 < stackDt c := h2
  rw [step_pos_eq _ _ _ hdt]
  constructor
  · show round1 (c.air + 150) ≤ round1 (max (airAfterStack L c) L.min_air_flow)
    apply round1_mono
    have ha : airAfterStack L c = c.air + 150 := by
      rw [airAfterStack, if_pos hsk, airAfterAb, if_pos hab]
      ring
    rw [ha]
    exact le_max_left _ _
  · show statusOf L c = Status.stackProtect
    rw [statusOf, if_pos hsk]

/-- Witness for the amended C6 theorem at the both-protections input. -/
theorem stack_trigger_composability_witness :
    bothPrev.time < bothCurr.time ∧
    exLimits.max_ab_dt - 10 < bothCurr.tc1 - bothCurr.tc3 ∧
    exLimits.max_stack_dt - 15 < |bothCurr.tc3 - bothCurr.t2| ∧
    (round1 (bothCurr.air + 150) ≤ (calculate_next_step exLimits bothCurr bothPrev).next_air ∧
      (calculate_next_step exLimits bothCurr bothPrev).status = Status.stackProtect) :=
  ⟨by norm_num [bothPrev, bothCurr], by norm_num [exLimits, bothCurr],
    by norm_num [exLimits, bothCurr, lt_abs],
    stack_trigger_composability exLimits bothCurr bothPrev
      (by norm_num [bothPrev, bothCurr]) (by norm_num [exLimits, bothCurr])
      (by norm_num [exLimits, bothCurr, lt_abs])⟩

/-- C7: when dt > 0 the returned observed_slope is
(current.tc3 - previous.tc3) / dt, the pre-protection fuel suggestion is
max(0, current.h2 + (target_slope - actual_slope) / 0.20), and the returned
next_h2 is that suggestion (clamped only by the afterburner rule) rounded
to two decimals. -/
theorem fuel_control_law (L : Limits) (c l : Sample) (hdt : l.time < c.time) :
    (calculate_next_step L c l).observed_slope =
      (c.tc3 - l.tc3) / ((c.time - l.time) / 60) ∧
    suggestedH2 L c l =
      max 0 (c.h2 + (L.target_slope - (c.tc3 - l.tc3) / ((c.time - l.time) / 60)) / 0.20) ∧
    (calculate_next_step L c l).next_h2 =
      round2 (if L.max_ab_dt - 10 < c.tc1 - c.tc3 then
        min (suggestedH2 L c l) (c.h2 * 0.95) else suggestedH2 L c l) := by
  rw [step_pos_eq _ _ _ hdt]
  exact ⟨rfl, rfl, rfl⟩

/-- Witness for the fuel-control-law theorem at the spec's example input. -/
theorem fuel_control_law_witness :
    prevSample.time < currSample.time ∧
    ((calculate_next_step exLimits currSample prevSample).observed_slope =
      (currSample.tc3 - prevSample.tc3) / ((currSample.time - prevSample.time) / 60) ∧
    suggestedH2 exLimits currSample prevSample =
      max 0 (currSample.h2 + (exLimits.target_slope -
        (currSample.tc3 - prevSample.tc3) /
          ((currSample.time - prevSample.time) / 60)) / 0.20) ∧
    (calculate_next_step exLimits currSample prevSample).next_h2 =
      round2 (if exLimits.max_ab_dt - 10 < currSample.tc1 - currSample.tc3 then
        min (suggestedH2 exLimits currSample prevSample) (currSample.h2 * 0.95)
        else suggestedH2 exLimits currSample prevSample)) :=
  ⟨by norm_num [prevSample, currSample],
    fuel_control_law exLimits currSample prevSample (by norm_num [prevSample, currSample])⟩

/-- C9: when dt > 0 and the afterburner condition does not hold
(ab_dt <= max_ab_dt - 10), next_h2 equals the rounded unclamped fuel
suggestion, whether or not the stack rule fires. -/
theorem stack_rule_preserves_fuel (L : Limits) (c l : Sample)
    (hdt : l.time < c.time) (hab : c.tc1 - c.tc3 ≤ L.max_ab_dt - 10) :
    (calculate_next_step L c l).next_h2 =
      round2 (max 0 (c.h2 + (L.target_slope -
        (c.tc3 - l.tc3) / ((c.time - l.time) / 60)) / 0.20)) := by
  rw [step_pos_eq _ _ _ hdt]
  show round2 (finalH2 L c l) = _
  rw [finalH2, if_neg (show ¬ (L.max_ab_dt - 10 < abDt c) from not_lt.mpr hab)]
  rfl

/-- Witness for the fuel-frame theorem at the spec's example input
(ab_dt = 159.5 <= 160). -/
theorem stack_rule_preserves_fuel_witness :
    prevSample.time < currSample.time ∧
    currSample.tc1 - currSample.tc3 ≤ exLimits.max_ab_dt - 10 ∧
    (calculate_next_step exLimits currSample prevSample).next_h2 =
      round2 (max 0 (currSample.h2 + (exLimits.target_slope -
        (currSample.tc3 - prevSample.tc3) /
          ((currSample.time - prevSample.time) / 60)) / 0.20)) :=
  ⟨by norm_num [prevSample, currSample], by norm_num [currSample, exLimits],
    stack_rule_preserves_fuel exLimits currSample prevSample
      (by norm_num [prevSample, currSample]) (by norm_num [currSample, exLimits])⟩

/-- C10: when dt > 0 the returned air setpoint is at least the one-decimal
rounding of the current air flow: the air baseline starts at the current
flow, the rules only add, the floor only raises, and rounding is monotone. -/
theorem air_never_reduced (L : Limits) (c l : Sample) (hdt : l.time < c.time) :
    round1 c.air ≤ (calculate_next_step L c l).next_air := by
  rw [step_pos_eq _ _ _ hdt]
  show round1 c.air ≤ round1 (max (airAfterStack L c) L.min_air_flow)
  apply round1_mono
  have h1 : c.air ≤ airAfterAb L c := by
    rw [airAfterAb]
    split_ifs <;> linarith
  have h2 : airAfterAb L c ≤ airAfterStack L c := by
    rw [airAfterStack]
    split_ifs <;> linarith
  exact le_trans (le_trans h1 h2) (le_max_left _ _)

/-- Witness for the air-monotonicity theorem at the both-protections input. -/
theorem air_never_reduced_witness :
    bothPrev.time < bothCurr.time ∧
    round1 bothCurr.air ≤ (calculate_next_step exLimits bothCurr bothPrev).next_air :=
  ⟨by norm_num [bothPrev, bothCurr],
    air_never_reduced exLimits bothCurr bothPrev (by norm_num [bothPrev, bothCurr])⟩

/-- The store built from empty keeps exactly the newest 20 samples. -/
lemma appendAll_nil_eq (xs : List Sample) :
    appendAll [] xs = xs.drop (xs.length - 20) := by
  induction xs using List.reverseRecOn with
  | nil => rfl
  | append_singleton ys x ih =>
      rw [appendAll, List.foldl_append, List.foldl_cons, List.foldl_nil, ← appendAll, ih,
        appendSample]
      by_cases h20 : 20 < ys.length
      · have hA : (ys.drop (ys.length - 20)).length = 20 := by
          rw [List.length_drop]
          omega
        rw [if_pos (by rw [List.length_append, hA]; norm_num)]
        have h1 : (ys.drop (ys.length - 20) ++ [x]).drop 1 =
            ys.drop (ys.length - 19) ++ [x] := by
          rw [List.drop_append_of_le_length (by rw [hA]; norm_num), List.drop_drop]
          congr 2
          omega
        have h2 : (ys ++ [x]).drop ((ys ++ [x]).length - 20) =
            ys.drop (ys.length - 19) ++ [x] := by
          have hl : (ys ++ [x]).length - 20 = ys.length - 19 := by
            simp only [List.length_append, List.length_singleton]
            omega
          rw [hl, List.drop_append_of_le_length (by omega)]
        rw [h1, h2]
      · have h0 : ys.length - 20 = 0 := by omega
        rw [h0, List.drop_zero]
        by_cases h21 : ys.length = 20
        · rw [if_pos (by simp only [List.length_append, List.length_singleton]; omega)]
          have hl : (ys ++ [x]).length - 20 = 1 := by
            simp only [List.length_append, List.length_singleton]
            omega
          rw [hl]
        · rw [if_neg (by simp only [List.length_append, List.length_singleton]; omega)]
          have hz : (ys ++ [x]).length - 20 = 0 := by
            simp only [List.length_append, List.length_singleton]
            omega
          rw [hz, List.drop_zero]

/-- C8: appending 25 samples to the empty store leaves exactly 20, the 5
oldest evicted and the remaining order preserved. -/
theorem bounded_history_fifo (xs : List Sample) (h : xs.length = 25) :
    appendAll [] xs = xs.drop 5 ∧ (appendAll [] xs).length = 20 := by
  have h1 : appendAll [] xs = xs.drop (xs.length - 20) := appendAll_nil_eq xs
  rw [h1, h]
  refine ⟨by norm_num, ?_⟩
  rw [List.length_drop, h]

/-- Witness for the bounded-store theorem on 25 concrete samples. -/
theorem bounded_history_fifo_witness :
    sampleSeq.length = 25 ∧
    (appendAll [] sampleSeq = sampleSeq.drop 5 ∧ (appendAll [] sampleSeq).length = 20) :=
  ⟨by rw [sampleSeq, List.length_map, List.length_range],
    bounded_history_fifo sampleSeq (by rw [sampleSeq, List.length_map, List.length_range])⟩

/-- C3 (counterexample): changing only min_air_flow (500 to 600) prepends no
record to the boundary log, although the claim requires exactly one change
record for every differing field of the four. -/
theorem min_air_flow_change_unlogged :
    minAirLimits.min_air_flow ≠ exLimits.min_air_flow ∧
    minAirLimits.target_slope = exLimits.target_slope ∧
    minAirLimits.max_stack_dt = exLimits.max_stack_dt ∧
    minAirLimits.max_ab_dt = exLimits.max_ab_dt ∧
    recordIfChanged 0 exLimits minAirLimits [] = [] := by
  norm_num [recordIfChanged, exLimits, minAirLimits]

/-- C3 (amended): the log update prepends records for the three monitored
fields only (one per differing field, none for min_air_flow); changing only
target_slope 0.7 to 0.9 yields exactly the record (targetSlope, 0.7, 0.9);
an unchanged configuration yields no record. -/
theorem boundary_log_fidelity (t : ℚ) (oldL newL : Limits) (log : List ChangeRecord) :
    recordIfChanged t oldL newL log = recordIfChanged t oldL newL [] ++ log ∧
    (recordIfChanged t oldL newL []).countP
        (fun r => decide (r.field = ConfigField.targetSlope)) =
      (if newL.target_slope = oldL.target_slope then 0 else 1) ∧
    (recordIfChanged t oldL newL []).countP
        (fun r => decide (r.field = ConfigField.stackDtLimit)) =
      (if newL.max_stack_dt = oldL.max_stack_dt then 0 else 1) ∧
    (recordIfChanged t oldL newL []).countP
        (fun r => decide (r.field = ConfigField.abDtLimit)) =
      (if newL.max_ab_dt = oldL.max_ab_dt then 0 else 1) ∧
    (recordIfChanged t oldL newL []).countP
        (fun r => decide (r.field = ConfigField.minAirFlow)) = 0 ∧
    recordIfChanged t oldL oldL log = log ∧
    recordIfChanged t exLimits slopeLimits [] =
      [⟨t, ConfigField.targetSlope, 0.7, 0.9⟩] := by
  refine ⟨?_, ?_, ?_, ?_, ?_, ?_, ?_⟩
  · unfold recordIfChanged
    split_ifs <;> simp
  · unfold recordIfChanged
    split_ifs <;> simp_all [List.countP_cons, List.countP_nil]
  · unfold recordIfChanged
    split_ifs <;> simp_all [List.countP_cons, List.countP_nil]
  · unfold recordIfChanged
    split_ifs <;> simp_all [List.countP_cons, List.countP_nil]
  · unfold recordIfChanged
    split_ifs <;> simp_all [List.countP_cons, List.countP_nil]
  · unfold recordIfChanged
    simp
  · norm_num [recordIfChanged, exLimits, slopeLimits]

end SOC
